import Mathlib

/-!
Shallow embedding of the CSV import pipeline of
`src/app/routes/_renderer.tsx` (Dropout-Prediction-System).

The embedding follows the source file: `parseCSV`/`parseLine` are the CSV
parser, the `validate*Row` functions are the per-type row validators, and
`process*Row` / `stepRow` / `runImport` model the `POST` handler's
per-type `switch` loop.  The Prisma store is modelled as an explicit
in-memory database value (`DB`) threaded through the loop; store
operations that can throw at runtime are modelled by an explicit
exception oracle (`Exc`).  JavaScript runtime primitives used by the
source (`new Date`, `parseInt`, `parseFloat`, the two quote-stripping
regular expressions) are modelled by executable Lean functions that are
faithful on the inputs the importer constructs.
-/

/-- JavaScript truthiness of a string-or-null-or-undefined row field:
`undefined`, `null` and the empty string are falsy (the embedding
collapses `undefined` and `null` into `none`, which the handler never
distinguishes). -/
def falsy : Option String → Bool
  | none => true
  | some s => s = ""

/-- `v || null` on a string-or-null field. -/
def orNull : Option String → Option String
  | none => none
  | some s => if s = "" then none else some s

/-- `v || d` on a string-or-null field with a string default. -/
def orDefault (v : Option String) (d : String) : String :=
  match v with
  | none => d
  | some s => if s = "" then d else s

/-- A parsed CSV row: the JavaScript object built by `parseCSV`, a
mapping from header name to string-or-null value. -/
abbrev Row := List (String × Option String)

/-- Property access `row[k]`: `none` for an absent key (undefined) or a
null value.  Duplicate headers overwrite earlier assignments, hence the
last matching pair wins. -/
def rowGet (r : Row) (k : String) : Option String :=
  match (r.filter (fun p => p.1 == k)).getLast? with
  | some p => p.2
  | none => none

/-- `row[k]` at a point where the source has already guarded the field
truthy; the `""` default is never observable behind such a guard. -/
def rowGetD (r : Row) (k : String) : String := (rowGet r k).getD ""

/-- ECMAScript whitespace as relevant here (space, tab, CR, LF). -/
def isWs (c : Char) : Bool := c.isWhitespace

/-- `trim` on a character list: drop leading and trailing whitespace
(kernel-reducible model of the JavaScript `String.prototype.trim`). -/
def trimChars (l : List Char) : List Char :=
  ((l.dropWhile isWs).reverse.dropWhile isWs).reverse

/-- `trim` on strings. -/
def jsTrim (s : String) : String := String.mk (trimChars s.data)

/-- `split(sep)` on a character list: the JavaScript split on a
one-character separator (splitting the empty list yields one empty
piece). -/
def splitSep (sep : Char) : List Char → List (List Char)
  | [] => [[]]
  | c :: rest =>
      let r := splitSep sep rest
      if c = sep then [] :: r
      else
        match r with
        | h :: t => (c :: h) :: t
        | [] => [[c]]

/-- `split(sep)` on strings. -/
def splitStr (sep : Char) (s : String) : List String :=
  (splitSep sep s.data).map String.mk

/-- The character loop of `parseLine` (lines 30–58): a double quote
toggles the in-quotes state unless it is an escaped pair `""` inside
quotes, a comma outside quotes ends the field, fields are trimmed. -/
def parseLineAux : List Char → Bool → List Char → List String
  | [], _, current => [String.mk (trimChars current)]
  | '"' :: '"' :: rest, true, current => parseLineAux rest true (current ++ ['"'])
  | '"' :: rest, inQuotes, current => parseLineAux rest (!inQuotes) current
  | ',' :: rest, false, current =>
      String.mk (trimChars current) :: parseLineAux rest false []
  | c :: rest, inQuotes, current => parseLineAux rest inQuotes (current ++ [c])

/-- `parseLine` (line 30): tokenize one CSV line. -/
def parseLine (line : String) : List String :=
  parseLineAux line.data false []

/-- The header pass `h.replace(/"/g, '')` (line 61): every double-quote
character is removed. -/
def removeAllQuotes (s : String) : String :=
  String.mk (s.data.filter (fun c => c ≠ '"'))

/-- The data pass `v.replace(/^"|"$/g, '')` (line 65): one leading and
one trailing double-quote character are removed. -/
def stripSurroundingQuotes (s : String) : String :=
  let l := if s.data.head? = some '"' then s.data.tail else s.data
  String.mk (if l.getLast? = some '"' then l.dropLast else l)

/-- Empty values are normalized to null (line 70); `parseLine` always
yields strings, so only `''` is normalized. -/
def normalizeEmpty (v : String) : Option String :=
  if v = "" then none else some v

/-- Build the row object from headers and (already stripped) values
(lines 67–72). -/
def mkRow (headers values : List String) : Row :=
  (headers.zip values).map (fun p => (p.1, normalizeEmpty p.2))

/-- The data-line loop of `parseCSV` (lines 64–74): strip surrounding
quotes from each token and keep only lines whose token count equals the
header count. -/
def csvRows (headers : List String) : List String → List Row
  | [] => []
  | l :: ls =>
      let values := (parseLine l).map stripSurroundingQuotes
      if values.length = headers.length then
        mkRow headers values :: csvRows headers ls
      else
        csvRows headers ls

/-- `parseCSV` (line 25): split the trimmed text on newlines; fewer than
two lines yield the empty sequence, otherwise the first line (with every
quote removed) provides the keys for the remaining lines. -/
def parseCSV (csvText : String) : List Row :=
  match splitStr '\n' (jsTrim csvText) with
  | first :: l :: rest =>
      csvRows ((parseLine first).map removeAllQuotes) (l :: rest)
  | _ => []

/-! ## JavaScript runtime primitives -/

/-- Value of a digit list in base 10. -/
def digitsVal (ds : List Char) : Nat :=
  ds.foldl (fun n c => 10 * n + (c.toNat - 48)) 0

/-- Nonempty all-digit string. -/
def allDigits (s : String) : Bool :=
  decide (s.length > 0) && s.data.all Char.isDigit

/-- Proleptic Gregorian leap year, as used by ECMAScript dates. -/
def isLeapYear (y : Nat) : Bool :=
  y % 4 = 0 && (y % 100 ≠ 0 || y % 400 = 0)

/-- Days in a month, as validated by the ECMAScript ISO date parser. -/
def daysInMonth (y m : Nat) : Nat :=
  if m = 2 then (if isLeapYear y then 29 else 28)
  else if m = 4 ∨ m = 6 ∨ m = 9 ∨ m = 11 then 30
  else 31

/-- A calendar date (the UTC day an ECMAScript `Date` built from an ISO
date string denotes). -/
structure IsoDate where
  year : Nat
  month : Nat
  day : Nat
deriving DecidableEq, Repr

/-- An ECMAScript `Date` value: either an invalid date
(`isNaN(d.getTime())`) or a calendar date. -/
inductive JsDate where
  | invalid
  | valid (d : IsoDate)
deriving DecidableEq, Repr

/-- Modelled from the ECMAScript `new Date(string)` constructor,
restricted to the ISO `YYYY-MM-DD` and `YYYY-MM` forms that the importer
constructs and feeds to it (a `YYYY-MM` form denotes the first day of the
month); every other string yields an invalid date. -/
def jsDate (s : String) : JsDate :=
  match splitStr '-' s with
  | [y, m] =>
      if allDigits y && allDigits m && y.length = 4 && m.length = 2 &&
          decide (1 ≤ digitsVal m.data) && decide (digitsVal m.data ≤ 12) then
        .valid ⟨digitsVal y.data, digitsVal m.data, 1⟩
      else .invalid
  | [y, m, d] =>
      if allDigits y && allDigits m && allDigits d &&
          y.length = 4 && m.length = 2 && d.length = 2 &&
          decide (1 ≤ digitsVal m.data) && decide (digitsVal m.data ≤ 12) &&
          decide (1 ≤ digitsVal d.data) &&
          decide (digitsVal d.data ≤ daysInMonth (digitsVal y.data) (digitsVal m.data)) then
        .valid ⟨digitsVal y.data, digitsVal m.data, digitsVal d.data⟩
      else .invalid
  | _ => .invalid

/-- Modelled from the ECMAScript `parseInt(string)` (radix 10): trim,
optional sign, then the longest leading digit run; `none` is `NaN`.
(The importer never feeds it hex or exponent forms.) -/
def jsParseInt (s : String) : Option Int :=
  let t := trimChars s.data
  let (sgn, rest) : Int × List Char :=
    match t with
    | '-' :: r => (-1, r)
    | '+' :: r => (1, r)
    | r => (1, r)
  let ds := rest.takeWhile Char.isDigit
  if ds.isEmpty then none else some (sgn * (digitsVal ds : Int))

/-- `10 ^ n`. -/
def pow10 : Nat → Nat
  | 0 => 1
  | n + 1 => 10 * pow10 n

/-- A finite ECMAScript number as produced by `parseFloat` on the
decimal forms the importer feeds it: the exact value `num / 10 ^ scale`.
Two such values produced by the same parse of the same digits share a
representation, so stored records compare as in the store. -/
structure JsNum where
  num : Int
  scale : Nat
deriving DecidableEq, Repr

/-- `a < b` on exact decimal values, by cross multiplication. -/
def JsNum.blt (a b : JsNum) : Bool :=
  a.num * (pow10 b.scale : Int) < b.num * (pow10 a.scale : Int)

/-- The number `i`. -/
def JsNum.ofInt (i : Int) : JsNum := ⟨i, 0⟩

/-- Modelled from the ECMAScript `parseFloat(string)`: trim, optional
sign, leading digits, optional fractional digits; `none` is `NaN`.
(Exponent notation, which the importer's data never uses, is not
modelled.) -/
def jsParseFloat (s : String) : Option JsNum :=
  let t := trimChars s.data
  let (sgn, rest) : Int × List Char :=
    match t with
    | '-' :: r => (-1, r)
    | '+' :: r => (1, r)
    | r => (1, r)
  let intPart := rest.takeWhile Char.isDigit
  let tail := rest.drop intPart.length
  let fracPart :=
    match tail with
    | '.' :: tl => tl.takeWhile Char.isDigit
    | _ => []
  if intPart.isEmpty && fracPart.isEmpty then none
  else some ⟨sgn * ((digitsVal intPart * pow10 fracPart.length : Nat) +
    (digitsVal fracPart : Nat) : Nat), fracPart.length⟩

/-- The month-key computation of the attendance branch (lines 376–389):
a month string must contain `-` and have length ≥ 7; a 7-character
`YYYY-MM` value gets `-01` appended before parsing, a longer value is
parsed as is.  `none` models the "Invalid month format" rejection. -/
def parseMonthKey (month : String) : Option JsDate :=
  if month.data.contains '-' && decide (7 ≤ month.length) then
    if month.length = 7 then some (jsDate (month ++ "-01"))
    else some (jsDate month)
  else none

/-- The batch-id pattern `/^([A-Z]+)(\d{4})([A-Z])$/` (line 217); on a
match it yields (department, year, section). -/
def batchIdMatch (s : String) : Option (String × Nat × String) :=
  let letters := s.data.takeWhile Char.isUpper
  let rest := s.data.drop letters.length
  let ds := rest.takeWhile Char.isDigit
  match rest.drop ds.length with
  | [c] =>
      if decide (1 ≤ letters.length) && ds.length = 4 && c.isUpper then
        some (String.mk letters, digitsVal ds, String.mk [c])
      else none
  | _ => none

/-! ## Store data model -/

/-- A `Student` row as written by the importer (`prisma.student`). -/
structure Student where
  studentId : String
  name : String
  email : String
  phone : Option String
  dob : JsDate
  department : Option String
  currentSemester : Int
  batchId : Option String
  teacherId : Option String
  parentName : Option String
  parentEmail : Option String
  parentPhone : Option String
  address : Option String
deriving DecidableEq, Repr

/-- A `Batch` row (`prisma.batch`). -/
structure Batch where
  batchId : String
  batchNo : String
  courseId : String
  year : Nat
  department : String
deriving DecidableEq, Repr

/-- A `CourseSubject` row (`prisma.courseSubject`). -/
structure CourseSubject where
  courseId : String
  name : String
  code : String
  semester : Int
  department : String
deriving DecidableEq, Repr

/-- An `Attendance` row (`prisma.attendance`); `attendanceId` is the
store-generated primary key. -/
structure AttendanceRec where
  attendanceId : Nat
  studentId : String
  courseId : String
  month : JsDate
  attendancePercent : JsNum
deriving DecidableEq, Repr

/-- A `TestScore` row (`prisma.testScore`). -/
structure TestScoreRec where
  studentId : String
  courseId : String
  testDate : JsDate
  score : JsNum
deriving DecidableEq, Repr

/-- A `Backlog` row (`prisma.backlog`); `backlogId` is the
store-generated primary key. -/
structure BacklogRec where
  backlogId : Nat
  studentId : String
  courseId : String
  attempts : Int
  cleared : Bool
deriving DecidableEq, Repr

/-- A `FeePayment` row (`prisma.feePayment`). -/
structure FeePaymentRec where
  studentId : String
  dueDate : JsDate
  paidDate : Option JsDate
  status : String
  dueMonths : Int
deriving DecidableEq, Repr

/-- A `Project` row (`prisma.project`). -/
structure ProjectRec where
  title : String
  description : Option String
  studentId : String
  supervisorId : String
  startDate : JsDate
  endDate : Option JsDate
  status : String
deriving DecidableEq, Repr

/-- A `PhdSupervision` row (`prisma.phdSupervision`). -/
structure PhdRec where
  title : String
  researchArea : String
  studentId : String
  supervisorId : String
  startDate : JsDate
  expectedEnd : Option JsDate
  status : String
deriving DecidableEq, Repr

/-- A `Fellowship` row (`prisma.fellowship`); `ftype` embeds the source
field `type` (a Lean keyword), `amount`/`duration` are `none` when
`parseFloat`/`parseInt` produced `NaN`. -/
structure FellowshipRec where
  ftype : String
  amount : Option JsNum
  duration : Option Int
  studentId : String
  supervisorId : String
  startDate : JsDate
  endDate : Option JsDate
  status : String
deriving DecidableEq, Repr

/-- The relational store: one list per table, in insertion order, plus a
counter for store-generated primary keys. -/
structure DB where
  students : List Student
  batches : List Batch
  courses : List CourseSubject
  attendance : List AttendanceRec
  testScores : List TestScoreRec
  backlogs : List BacklogRec
  fees : List FeePaymentRec
  projects : List ProjectRec
  phds : List PhdRec
  fellowships : List FellowshipRec
  nextId : Nat
deriving DecidableEq, Repr

/-- The empty store. -/
def emptyDB : DB := ⟨[], [], [], [], [], [], [], [], [], [], 0⟩

/-- `prisma.student.findUnique({where: {studentId}})`. -/
def findStudent (db : DB) (sid : String) : Option Student :=
  db.students.find? (fun s => s.studentId == sid)

/-- `prisma.batch.findUnique({where: {batchId}})`. -/
def findBatch (db : DB) (bid : String) : Option Batch :=
  db.batches.find? (fun b => b.batchId == bid)

/-- `prisma.courseSubject.findUnique({where: {courseId}})`. -/
def findCourse (db : DB) (cid : String) : Option CourseSubject :=
  db.courses.find? (fun c => c.courseId == cid)

/-- `prisma.student.update({where: {studentId}, data})`: replace the
record(s) with that unique key. -/
def updateStudentRec (db : DB) (sid : String) (upd : Student) : DB :=
  { db with students := db.students.map (fun s => if s.studentId == sid then upd else s) }

/-- The course auto-vivification shared by the attendance, testscores
and backlogs branches (e.g. lines 360–374): find the course, else create
it with placeholder metadata. -/
def ensureCourse (db : DB) (cid : String) (student : Student) : DB :=
  match findCourse db cid with
  | some _ => db
  | none =>
      { db with courses := db.courses ++
          [⟨cid, "Course " ++ cid, cid, 1, orDefault student.department "General"⟩] }

/-! ## Row validators (lines 80–143) -/

/-- `validateStudentRow` (line 80). -/
def validateStudentRow (row : Row) : Option String :=
  if falsy (rowGet row "studentId") then some "Missing studentId"
  else if falsy (rowGet row "name") then some "Missing name"
  else if falsy (rowGet row "email") then some "Missing email"
  else if falsy (rowGet row "dob") then some "Missing dob"
  else if falsy (rowGet row "currentSemester") then some "Missing currentSemester"
  else none

/-- `validateAttendanceRow` (line 89). -/
def validateAttendanceRow (row : Row) : Option String :=
  if falsy (rowGet row "studentId") then some "Missing studentId"
  else if falsy (rowGet row "courseId") then some "Missing courseId"
  else if falsy (rowGet row "month") then some "Missing month"
  else if falsy (rowGet row "attendancePercent") then some "Missing attendancePercent"
  else none

/-- `validateTestScoreRow` (line 97). -/
def validateTestScoreRow (row : Row) : Option String :=
  if falsy (rowGet row "studentId") then some "Missing studentId"
  else if falsy (rowGet row "courseId") then some "Missing courseId"
  else if falsy (rowGet row "testDate") then some "Missing testDate"
  else if falsy (rowGet row "score") then some "Missing score"
  else none

/-- `validateBacklogRow` (line 105); `cleared` is checked for presence
(`=== undefined || === null`), not truthiness. -/
def validateBacklogRow (row : Row) : Option String :=
  if falsy (rowGet row "studentId") then some "Missing studentId"
  else if falsy (rowGet row "courseId") then some "Missing courseId"
  else if falsy (rowGet row "attempts") then some "Missing attempts"
  else if (rowGet row "cleared").isNone then some "Missing cleared field"
  else none

/-- `validateFeeRow` (line 113). -/
def validateFeeRow (row : Row) : Option String :=
  if falsy (rowGet row "studentId") then some "Missing studentId"
  else if falsy (rowGet row "dueDate") then some "Missing dueDate"
  else if falsy (rowGet row "status") then some "Missing status"
  else if falsy (rowGet row "dueMonths") then some "Missing dueMonths"
  else none

/-- `validateProjectRow` (line 121). -/
def validateProjectRow (row : Row) : Option String :=
  if falsy (rowGet row "studentId") then some "Missing studentId"
  else if falsy (rowGet row "title") then some "Missing title"
  else if falsy (rowGet row "startDate") then some "Missing startDate"
  else none

/-- `validatePhdRow` (line 128). -/
def validatePhdRow (row : Row) : Option String :=
  if falsy (rowGet row "studentId") then some "Missing studentId"
  else if falsy (rowGet row "title") then some "Missing title"
  else if falsy (rowGet row "researchArea") then some "Missing researchArea"
  else if falsy (rowGet row "startDate") then some "Missing startDate"
  else none

/-- `validateFellowshipRow` (line 136). -/
def validateFellowshipRow (row : Row) : Option String :=
  if falsy (rowGet row "studentId") then some "Missing studentId"
  else if falsy (rowGet row "type") then some "Missing type"
  else if falsy (rowGet row "amount") then some "Missing amount"
  else if falsy (rowGet row "duration") then some "Missing duration"
  else if falsy (rowGet row "startDate") then some "Missing startDate"
  else none

/-! ## Import dispatcher (the `POST` handler's switch, lines 180–746) -/

/-- Exception oracle for one row: whether the batch find/create block
throws (caught at line 261) and whether the first store operation
outside that block throws (caught by the per-row `catch`), each with the
thrown message.  `none` means the operation succeeds. -/
structure Exc where
  batch : Option String
  dbop : Option String
deriving DecidableEq, Repr

/-- A row whose store operations all succeed. -/
def noExc : Exc := ⟨none, none⟩

/-- The running state of one upload: the store, the accumulated error
list and the count of successfully processed rows. -/
structure ImportState where
  db : DB
  errors : List String
  processed : Nat
deriving DecidableEq, Repr

/-- The error template used at every push site:
`Row ${processed + 1}: ${reason}`. -/
def rowErr (processed : Nat) (reason : String) : String :=
  "Row " ++ toString (processed + 1) ++ ": " ++ reason

/-- The batch block of the students branch (lines 204–265): on a truthy
`batchId`, look the batch up, lazily creating it (together with a
`<dept>_GENERAL` placeholder course) when the id matches the batch
pattern; a thrown store error is caught, reported, and leaves the
student's batch reference null.  Returns the updated store, the errors
pushed, and `finalBatchId`. -/
def handleBatch (exc : Exc) (row : Row) (db : DB) (p : Nat) :
    DB × List String × Option String :=
  match rowGet row "batchId" with
  | none => (db, [], none)
  | some bid =>
      if bid = "" then (db, [], none)
      else
        match exc.batch with
        | some m =>
            (db, [rowErr p ("Could not create/find batch " ++ bid ++ ": " ++ m)], none)
        | none =>
            match findBatch db bid with
            | some _ => (db, [], some bid)
            | none =>
                match batchIdMatch bid with
                | none => (db, [], none)
                | some (dept, year, sec) =>
                    let defaultCourseId := dept ++ "_GENERAL"
                    let db1 : DB :=
                      match findCourse db defaultCourseId with
                      | some _ => db
                      | none =>
                          { db with courses := db.courses ++
                              [⟨defaultCourseId, dept ++ " General Course",
                                defaultCourseId, 1, dept⟩] }
                    let db2 : DB := { db1 with batches := db1.batches ++
                        [⟨bid, sec, defaultCourseId, year, dept⟩] }
                    (db2, [], some bid)

/-- The `data` object passed to `prisma.student.create`/`update`
(lines 276–333). -/
def studentPayload (row : Row) (dobDate : JsDate) (sem : Int)
    (fbid : Option String) (tidField : Option String) : Student :=
  { studentId := rowGetD row "studentId"
    name := rowGetD row "name"
    email := rowGetD row "email"
    phone := orNull (rowGet row "phone")
    dob := dobDate
    department := orNull (rowGet row "department")
    currentSemester := sem
    batchId := fbid
    teacherId := tidField
    parentName := orNull (rowGet row "parentName")
    parentEmail := orNull (rowGet row "parentEmail")
    parentPhone := orNull (rowGet row "parentPhone")
    address := orNull (rowGet row "address") }

/-- One students row (lines 182–339): validate; parse `dob` and
`currentSemester`; run the batch block; then upsert the student — an
existing student with a falsy owning teacher is claimed by the uploading
teacher, an existing student with an owning teacher keeps it (the update
payload omits `teacherId`), a new student is created owned by the
uploading teacher. -/
def processStudentRow (tid : String) (exc : Exc) (row : Row)
    (st : ImportState) : ImportState :=
  match validateStudentRow row with
  | some e => { st with errors := st.errors ++ [rowErr st.processed e] }
  | none =>
      let dob := rowGetD row "dob"
      let dobDate := jsDate dob
      if dobDate = .invalid then
        { st with errors := st.errors ++
            [rowErr st.processed ("Invalid date format for dob: " ++ dob)] }
      else
        let semRaw := rowGetD row "currentSemester"
        match jsParseInt semRaw with
        | none =>
            { st with errors := st.errors ++
                [rowErr st.processed ("Invalid currentSemester: " ++ semRaw)] }
        | some sem =>
            if sem < 1 ∨ sem > 8 then
              { st with errors := st.errors ++
                  [rowErr st.processed ("Invalid currentSemester: " ++ semRaw)] }
            else
              let (db1, batchErrs, fbid) := handleBatch exc row st.db st.processed
              match exc.dbop with
              | some m =>
                  { st with
                    db := db1
                    errors := st.errors ++ batchErrs ++
                      [rowErr st.processed ("Database error - " ++ m)] }
              | none =>
                  let sid := rowGetD row "studentId"
                  let db2 : DB :=
                    match findStudent db1 sid with
                    | some ex =>
                        let newTid :=
                          if falsy ex.teacherId then some tid else ex.teacherId
                        updateStudentRec db1 sid (studentPayload row dobDate sem fbid newTid)
                    | none =>
                        { db1 with students := db1.students ++
                            [studentPayload row dobDate sem fbid (some tid)] }
                  { st with
                    db := db2
                    errors := st.errors ++ batchErrs
                    processed := st.processed + 1 }

/-- One attendance row (lines 342–433): validate; require the student to
exist; auto-vivify the course; parse the month key and the percentage
(range 0–100); then update the record found for
(studentId, courseId, month) or create a new one. -/
def processAttendanceRow (_tid : String) (exc : Exc) (row : Row)
    (st : ImportState) : ImportState :=
  match validateAttendanceRow row with
  | some e => { st with errors := st.errors ++ [rowErr st.processed e] }
  | none =>
      match exc.dbop with
      | some m =>
          { st with errors := st.errors ++
              [rowErr st.processed ("Database error - " ++ m)] }
      | none =>
          let sid := rowGetD row "studentId"
          match findStudent st.db sid with
          | none =>
              { st with errors := st.errors ++
                  [rowErr st.processed ("Student " ++ sid ++ " not found")] }
          | some student =>
              let cid := rowGetD row "courseId"
              let db1 := ensureCourse st.db cid student
              let month := rowGetD row "month"
              match parseMonthKey month with
              | none =>
                  { st with
                    db := db1
                    errors := st.errors ++
                      [rowErr st.processed ("Invalid month format: " ++ month)] }
              | some monthDate =>
                  if monthDate = .invalid then
                    { st with
                      db := db1
                      errors := st.errors ++
                        [rowErr st.processed ("Invalid month date: " ++ month)] }
                  else
                    let pctRaw := rowGetD row "attendancePercent"
                    match jsParseFloat pctRaw with
                    | none =>
                        { st with
                          db := db1
                          errors := st.errors ++
                            [rowErr st.processed
                              ("Invalid attendance percentage: " ++ pctRaw)] }
                    | some pct =>
                        if pct.blt (JsNum.ofInt 0) || (JsNum.ofInt 100).blt pct then
                          { st with
                            db := db1
                            errors := st.errors ++
                              [rowErr st.processed
                                ("Invalid attendance percentage: " ++ pctRaw)] }
                        else
                          let existing := db1.attendance.find?
                            (fun a => a.studentId == sid && a.courseId == cid &&
                              a.month == monthDate)
                          let db2 : DB :=
                            match existing with
                            | some ea =>
                                { db1 with attendance := db1.attendance.map (fun a =>
                                    if a.attendanceId == ea.attendanceId then
                                      { a with attendancePercent := pct } else a) }
                            | none =>
                                { db1 with
                                  attendance := db1.attendance ++
                                    [⟨db1.nextId, sid, cid, monthDate, pct⟩]
                                  nextId := db1.nextId + 1 }
                          { st with db := db2, processed := st.processed + 1 }

/-- One testscores row (lines 435–496): validate; require the student to
exist; auto-vivify the course; parse the test date and the score (range
0–100); then always create a new record — there is no existing-record
lookup. -/
def processTestScoreRow (_tid : String) (exc : Exc) (row : Row)
    (st : ImportState) : ImportState :=
  match validateTestScoreRow row with
  | some e => { st with errors := st.errors ++ [rowErr st.processed e] }
  | none =>
      match exc.dbop with
      | some m =>
          { st with errors := st.errors ++
              [rowErr st.processed ("Database error - " ++ m)] }
      | none =>
          let sid := rowGetD row "studentId"
          match findStudent st.db sid with
          | none =>
              { st with errors := st.errors ++
                  [rowErr st.processed ("Student " ++ sid ++ " not found")] }
          | some student =>
              let cid := rowGetD row "courseId"
              let db1 := ensureCourse st.db cid student
              let tdRaw := rowGetD row "testDate"
              let testDate := jsDate tdRaw
              if testDate = .invalid then
                { st with
                  db := db1
                  errors := st.errors ++
                    [rowErr st.processed ("Invalid test date: " ++ tdRaw)] }
              else
                let scoreRaw := rowGetD row "score"
                match jsParseFloat scoreRaw with
                | none =>
                    { st with
                      db := db1
                      errors := st.errors ++
                        [rowErr st.processed ("Invalid score: " ++ scoreRaw)] }
                | some score =>
                    if score.blt (JsNum.ofInt 0) || (JsNum.ofInt 100).blt score then
                      { st with
                        db := db1
                        errors := st.errors ++
                          [rowErr st.processed ("Invalid score: " ++ scoreRaw)] }
                    else
                      { st with
                        db := { db1 with testScores := db1.testScores ++
                          [⟨sid, cid, testDate, score⟩] }
                        processed := st.processed + 1 }

/-- One backlogs row (lines 498–575): validate; require the student to
exist; auto-vivify the course; parse attempts (≥ 1) and the cleared
flag; then update the record found for (studentId, courseId) or create a
new one. -/
def processBacklogRow (_tid : String) (exc : Exc) (row : Row)
    (st : ImportState) : ImportState :=
  match validateBacklogRow row with
  | some e => { st with errors := st.errors ++ [rowErr st.processed e] }
  | none =>
      match exc.dbop with
      | some m =>
          { st with errors := st.errors ++
              [rowErr st.processed ("Database error - " ++ m)] }
      | none =>
          let sid := rowGetD row "studentId"
          match findStudent st.db sid with
          | none =>
              { st with errors := st.errors ++
                  [rowErr st.processed ("Student " ++ sid ++ " not found")] }
          | some student =>
              let cid := rowGetD row "courseId"
              let db1 := ensureCourse st.db cid student
              let attemptsRaw := rowGetD row "attempts"
              match jsParseInt attemptsRaw with
              | none =>
                  { st with
                    db := db1
                    errors := st.errors ++
                      [rowErr st.processed ("Invalid attempts: " ++ attemptsRaw)] }
              | some attempts =>
                  if attempts < 1 then
                    { st with
                      db := db1
                      errors := st.errors ++
                        [rowErr st.processed ("Invalid attempts: " ++ attemptsRaw)] }
                  else
                    let clearedRaw := rowGet row "cleared"
                    let cleared := clearedRaw == some "true" ||
                      clearedRaw == some "1" || clearedRaw == some "TRUE" ||
                      clearedRaw == some "True"
                    let existing := db1.backlogs.find?
                      (fun b => b.studentId == sid && b.courseId == cid)
                    let db2 : DB :=
                      match existing with
                      | some eb =>
                          { db1 with backlogs := db1.backlogs.map (fun b =>
                              if b.backlogId == eb.backlogId then
                                { b with attempts := attempts, cleared := cleared }
                              else b) }
                      | none =>
                          { db1 with
                            backlogs := db1.backlogs ++
                              [⟨db1.nextId, sid, cid, attempts, cleared⟩]
                            nextId := db1.nextId + 1 }
                    { st with db := db2, processed := st.processed + 1 }

/-- One fees row (lines 577–633): validate; require the student to
exist; parse the due date, the optional paid date and dueMonths (≥ 1);
then always create a new record. -/
def processFeeRow (_tid : String) (exc : Exc) (row : Row)
    (st : ImportState) : ImportState :=
  match validateFeeRow row with
  | some e => { st with errors := st.errors ++ [rowErr st.processed e] }
  | none =>
      match exc.dbop with
      | some m =>
          { st with errors := st.errors ++
              [rowErr st.processed ("Database error - " ++ m)] }
      | none =>
          let sid := rowGetD row "studentId"
          match findStudent st.db sid with
          | none =>
              { st with errors := st.errors ++
                  [rowErr st.processed ("Student " ++ sid ++ " not found")] }
          | some _ =>
              let ddRaw := rowGetD row "dueDate"
              let dueDate := jsDate ddRaw
              if dueDate = .invalid then
                { st with errors := st.errors ++
                    [rowErr st.processed ("Invalid due date: " ++ ddRaw)] }
              else
                let pdField := rowGet row "paidDate"
                let pdBad := falsy pdField = false ∧ jsDate (rowGetD row "paidDate") = .invalid
                if pdBad then
                  { st with errors := st.errors ++
                      [rowErr st.processed
                        ("Invalid paid date: " ++ rowGetD row "paidDate")] }
                else
                  let paidDate : Option JsDate :=
                    if falsy pdField then none else some (jsDate (rowGetD row "paidDate"))
                  let dmRaw := rowGetD row "dueMonths"
                  match jsParseInt dmRaw with
                  | none =>
                      { st with errors := st.errors ++
                          [rowErr st.processed ("Invalid due months: " ++ dmRaw)] }
                  | some dueMonths =>
                      if dueMonths < 1 then
                        { st with errors := st.errors ++
                            [rowErr st.processed ("Invalid due months: " ++ dmRaw)] }
                      else
                        { st with
                          db := { st.db with fees := st.db.fees ++
                            [⟨sid, dueDate, paidDate, rowGetD row "status", dueMonths⟩] }
                          processed := st.processed + 1 }

/-- One projects row (lines 635–669): validate; require the student to
exist; then create the record directly — `startDate` is passed through
`new Date` with no validity check. -/
def processProjectRow (tid : String) (exc : Exc) (row : Row)
    (st : ImportState) : ImportState :=
  match validateProjectRow row with
  | some e => { st with errors := st.errors ++ [rowErr st.processed e] }
  | none =>
      match exc.dbop with
      | some m =>
          { st with errors := st.errors ++
              [rowErr st.processed ("Database error - " ++ m)] }
      | none =>
          let sid := rowGetD row "studentId"
          match findStudent st.db sid with
          | none =>
              { st with errors := st.errors ++
                  [rowErr st.processed ("Student " ++ sid ++ " not found")] }
          | some _ =>
              let endDate : Option JsDate :=
                if falsy (rowGet row "endDate") then none
                else some (jsDate (rowGetD row "endDate"))
              { st with
                db := { st.db with projects := st.db.projects ++
                  [⟨rowGetD row "title", orNull (rowGet row "description"), sid, tid,
                    jsDate (rowGetD row "startDate"), endDate,
                    orDefault (rowGet row "status") "Active"⟩] }
                processed := st.processed + 1 }

/-- One phd row (lines 671–705): validate; require the student to exist;
then create the record directly — `startDate` is passed through
`new Date` with no validity check. -/
def processPhdRow (tid : String) (exc : Exc) (row : Row)
    (st : ImportState) : ImportState :=
  match validatePhdRow row with
  | some e => { st with errors := st.errors ++ [rowErr st.processed e] }
  | none =>
      match exc.dbop with
      | some m =>
          { st with errors := st.errors ++
              [rowErr st.processed ("Database error - " ++ m)] }
      | none =>
          let sid := rowGetD row "studentId"
          match findStudent st.db sid with
          | none =>
              { st with errors := st.errors ++
                  [rowErr st.processed ("Student " ++ sid ++ " not found")] }
          | some _ =>
              let expectedEnd : Option JsDate :=
                if falsy (rowGet row "expectedEnd") then none
                else some (jsDate (rowGetD row "expectedEnd"))
              { st with
                db := { st.db with phds := st.db.phds ++
                  [⟨rowGetD row "title", rowGetD row "researchArea", sid, tid,
                    jsDate (rowGetD row "startDate"), expectedEnd,
                    orDefault (rowGet row "status") "Ongoing"⟩] }
                processed := st.processed + 1 }

/-- One fellowships row (lines 707–742): validate; require the student
to exist; then create the record directly — `amount`, `duration` and
`startDate` are passed through `parseFloat`/`parseInt`/`new Date` with
no validity check, so `NaN`/invalid values are stored as such. -/
def processFellowshipRow (tid : String) (exc : Exc) (row : Row)
    (st : ImportState) : ImportState :=
  match validateFellowshipRow row with
  | some e => { st with errors := st.errors ++ [rowErr st.processed e] }
  | none =>
      match exc.dbop with
      | some m =>
          { st with errors := st.errors ++
              [rowErr st.processed ("Database error - " ++ m)] }
      | none =>
          let sid := rowGetD row "studentId"
          match findStudent st.db sid with
          | none =>
              { st with errors := st.errors ++
                  [rowErr st.processed ("Student " ++ sid ++ " not found")] }
          | some _ =>
              let endDate : Option JsDate :=
                if falsy (rowGet row "endDate") then none
                else some (jsDate (rowGetD row "endDate"))
              { st with
                db := { st.db with fellowships := st.db.fellowships ++
                  [⟨rowGetD row "type", jsParseFloat (rowGetD row "amount"),
                    jsParseInt (rowGetD row "duration"), sid, tid,
                    jsDate (rowGetD row "startDate"), endDate,
                    orDefault (rowGet row "status") "Active"⟩] }
                processed := st.processed + 1 }

/-- The upload `type` form field (line 180). -/
inductive UploadType where
  | students
  | attendance
  | testscores
  | backlogs
  | fees
  | projects
  | phd
  | fellowships
deriving DecidableEq, Repr

/-- The validator the switch runs for each type. -/
def validatorFor : UploadType → Row → Option String
  | .students => validateStudentRow
  | .attendance => validateAttendanceRow
  | .testscores => validateTestScoreRow
  | .backlogs => validateBacklogRow
  | .fees => validateFeeRow
  | .projects => validateProjectRow
  | .phd => validatePhdRow
  | .fellowships => validateFellowshipRow

/-- Processing of one row, dispatched on the upload type. -/
def stepRow : UploadType → String → Exc → Row → ImportState → ImportState
  | .students => processStudentRow
  | .attendance => processAttendanceRow
  | .testscores => processTestScoreRow
  | .backlogs => processBacklogRow
  | .fees => processFeeRow
  | .projects => processProjectRow
  | .phd => processPhdRow
  | .fellowships => processFellowshipRow

/-- The per-row loop: rows are processed strictly in arrival order; the
exception oracle gives each row its store behaviour. -/
def runImport (t : UploadType) (tid : String) (exc : Nat → Exc) :
    List Row → ImportState → ImportState
  | [], st => st
  | r :: rs, st =>
      runImport t tid (fun n => exc (n + 1)) rs (stepRow t tid (exc 0) r st)

/-- The success JSON body (lines 755–760). -/
structure UploadResponse where
  success : Bool
  processed : Nat
  total : Nat
  errors : List String
deriving DecidableEq, Repr

/-- The whole import of a parsed row list: run the loop from an empty
error list and a zero processed count, answer with `processed`, `total`
(all parser rows) and the first 10 errors. -/
def importCSV (t : UploadType) (tid : String) (exc : Nat → Exc)
    (rows : List Row) (db : DB) : UploadResponse × DB :=
  let st := runImport t tid exc rows ⟨db, [], 0⟩
  (⟨true, st.processed, rows.length, st.errors.take 10⟩, st.db)

/-! ## Concrete fixtures used by witnesses and counterexamples -/

/-- A student already owned by teacher `T0`. -/
def stu1 : Student :=
  ⟨"S1", "Alice", "a@x.com", none, .valid ⟨2000, 1, 1⟩, none, 3, none,
    some "T0", none, none, none, none⟩

/-- A student with no owning teacher. -/
def stuOrphan : Student :=
  ⟨"S3", "Carol", "c@x.com", none, .valid ⟨2002, 5, 6⟩, none, 2, none,
    none, none, none, none, none⟩

/-- A store holding `stu1`, `stuOrphan` and one course `C1`. -/
def dbS : DB :=
  { emptyDB with
    students := [stu1, stuOrphan]
    courses := [⟨"C1", "Course C1", "C1", 1, "General"⟩] }

/-- An attendance row for `S1`/`C1` with the given month and percent. -/
def attRow (m p : String) : Row :=
  [("studentId", some "S1"), ("courseId", some "C1"),
   ("month", some m), ("attendancePercent", some p)]

/-- A backlog row for `S1`/`C1`. -/
def backlogRow (att cl : String) : Row :=
  [("studentId", some "S1"), ("courseId", some "C1"),
   ("attempts", some att), ("cleared", some cl)]

/-- A testscores row for `S1`/`C1`. -/
def scoreRow (d sc : String) : Row :=
  [("studentId", some "S1"), ("courseId", some "C1"),
   ("testDate", some d), ("score", some sc)]

/-- A students row for a new student `S2` with a batch reference. -/
def stuRow : Row :=
  [("studentId", some "S2"), ("name", some "Bob"), ("email", some "b@x.com"),
   ("dob", some "2001-02-03"), ("currentSemester", some "4"),
   ("batchId", some "CSE2024B")]

/-- A students row for the orphaned student `S3`. -/
def stuRowS3 : Row :=
  [("studentId", some "S3"), ("name", some "Carol"), ("email", some "c@x.com"),
   ("dob", some "2002-05-06"), ("currentSemester", some "2")]

/-- A students row for the owned student `S1`. -/
def stuRowS1 : Row :=
  [("studentId", some "S1"), ("name", some "Alice"), ("email", some "a@x.com"),
   ("dob", some "2000-01-01"), ("currentSemester", some "3")]

/-- The fixture store with one existing attendance record for
`(S1, C1, 2024-03-01)`. -/
def dbA : DB :=
  { dbS with attendance := [⟨0, "S1", "C1", .valid ⟨2024, 3, 1⟩, ⟨80, 0⟩⟩]
             nextId := 1 }

/-- The fixture store with one existing backlog record for `(S1, C1)`. -/
def dbB : DB :=
  { dbS with backlogs := [⟨0, "S1", "C1", 1, false⟩]
             nextId := 1 }

/-- The fixture store with one existing test score for `(S1, C1)`. -/
def dbT : DB :=
  { dbS with testScores := [⟨"S1", "C1", .valid ⟨2024, 1, 10⟩, ⟨70, 0⟩⟩] }

/-- An attendance row referencing the not-yet-existing course `C9`. -/
def attRowX : Row :=
  [("studentId", some "S1"), ("courseId", some "C9"),
   ("month", some "2024-03"), ("attendancePercent", some "80")]

/-- A fees row referencing the nonexistent student `S9`. -/
def feeRowX : Row :=
  [("studentId", some "S9"), ("dueDate", some "2024-01-01"),
   ("status", some "Due"), ("dueMonths", some "2")]

/-- A projects row with an unparseable start date. -/
def badProjectRow : Row :=
  [("studentId", some "S1"), ("title", some "T"), ("startDate", some "garbage")]

/-! ## Claims -/

/-- C1: the spec states that the `n` of each `"Row {n}: {reason}"` error
entry is the failing row's ordinal position in arrival order.  The code
computes `n` as `processed + 1`, where `processed` counts only rows
processed successfully, so the ordinal does not advance past a failed
row: uploading two students rows that both fail validation labels both
errors `Row 1`, and the second failing row (arrival position 2) is not
labelled `Row 2`. -/
theorem C1_row_number_uses_processed_count :
    (runImport .students "T1" (fun _ => noExc) [[], []]
        ⟨emptyDB, [], 0⟩).errors
      = ["Row 1: Missing studentId", "Row 1: Missing studentId"] ∧
    (runImport .students "T1" (fun _ => noExc) [[], []]
        ⟨emptyDB, [], 0⟩).errors.get? 1 ≠ some "Row 2: Missing studentId" := by
  exact ⟨by decide, by decide⟩

/-- C3 counterexample: two attendance rows for the same student and
course whose month values fall in the same calendar month — `"2024-03"`
and `"2024-03-15"` — do NOT address the same attendance record: the
importer stores March 1 for the first and March 15 for the second, and
the second upload creates a second record instead of updating the
first. -/
theorem C3_counterexample :
    (runImport .attendance "T1" (fun _ => noExc)
        [attRow "2024-03" "80", attRow "2024-03-15" "90"]
        ⟨dbS, [], 0⟩).db.attendance
      = [⟨0, "S1", "C1", .valid ⟨2024, 3, 1⟩, ⟨80, 0⟩⟩,
         ⟨1, "S1", "C1", .valid ⟨2024, 3, 15⟩, ⟨90, 0⟩⟩] ∧
    (runImport .attendance "T1" (fun _ => noExc)
        [attRow "2024-03" "80", attRow "2024-03-15" "90"]
        ⟨dbS, [], 0⟩).db.attendance.length = 2 := by
  exact ⟨by decide, by decide⟩

/-- C8: tokenizing the field `"He said ""hi"""` yields the literal value
`He said "hi"`; the second pass then strips one leading and one trailing
double-quote character from every tokenized data value (here only the
trailing one matches), so the value stored for the row is
`He said "hi`. -/
theorem C8_escaped_quote_roundtrip :
    parseLine "\"He said \"\"hi\"\"\"" = ["He said \"hi\""] ∧
    stripSurroundingQuotes "He said \"hi\"" = "He said \"hi" ∧
    parseCSV ("msg\n" ++ "\"He said \"\"hi\"\"\"")
      = [[("msg", some "He said \"hi")]] := by
  exact ⟨by decide, by decide, by decide⟩

/-- C2 counterexample: a projects row with the unparseable start date
`"garbage"` is not rejected: no error is appended, the row is counted as
processed, and a project record holding an invalid start date is
persisted — so a coercion failure does reach persistence for the
projects type (and likewise phd and fellowships, which share the
pattern). -/
theorem C2_counterexample :
    (runImport .projects "T1" (fun _ => noExc) [badProjectRow]
        ⟨dbS, [], 0⟩).db.projects
      = [⟨"T", none, "S1", "T1", .invalid, none, "Active"⟩] ∧
    (runImport .projects "T1" (fun _ => noExc) [badProjectRow]
        ⟨dbS, [], 0⟩).errors = [] ∧
    (runImport .projects "T1" (fun _ => noExc) [badProjectRow]
        ⟨dbS, [], 0⟩).processed = 1 ∧
    jsDate "garbage" = .invalid := by
  exact ⟨by decide, by decide, by decide, by decide⟩

/-- C2 amended: the coercion checks exist — and append an error and skip
the row — for the five types that perform them: students (dob date,
semester in [1,8]), attendance (month format and date, percent in
[0,100]), testscores (test date, score in [0,100]), backlogs
(attempts ≥ 1) and fees (due date, paid date, dueMonths ≥ 1).  The
projects, phd and fellowships branches perform no coercion validation:
their rows are persisted with `startDate`/`amount`/`duration` passed
raw through `new Date`/`parseFloat`/`parseInt`, invalid or `NaN` values
included. -/
theorem C2_amended_coercion_checks :
    (∀ tid exc row st, validateStudentRow row = none →
      jsDate (rowGetD row "dob") = .invalid →
      stepRow .students tid exc row st =
        { st with errors := st.errors ++
            [rowErr st.processed
              ("Invalid date format for dob: " ++ rowGetD row "dob")] }) ∧
    (∀ tid exc row st, validateStudentRow row = none →
      jsDate (rowGetD row "dob") ≠ .invalid →
      (jsParseInt (rowGetD row "currentSemester") = none ∨
        ∃ k, jsParseInt (rowGetD row "currentSemester") = some k ∧
          (k < 1 ∨ k > 8)) →
      stepRow .students tid exc row st =
        { st with errors := st.errors ++
            [rowErr st.processed
              ("Invalid currentSemester: " ++ rowGetD row "currentSemester")] }) ∧
    (∀ tid exc row st stu, validateAttendanceRow row = none →
      exc.dbop = none →
      findStudent st.db (rowGetD row "studentId") = some stu →
      parseMonthKey (rowGetD row "month") = none →
      stepRow .attendance tid exc row st =
        { st with
          db := ensureCourse st.db (rowGetD row "courseId") stu
          errors := st.errors ++
            [rowErr st.processed
              ("Invalid month format: " ++ rowGetD row "month")] }) ∧
    (∀ tid exc row st stu, validateAttendanceRow row = none →
      exc.dbop = none →
      findStudent st.db (rowGetD row "studentId") = some stu →
      parseMonthKey (rowGetD row "month") = some .invalid →
      stepRow .attendance tid exc row st =
        { st with
          db := ensureCourse st.db (rowGetD row "courseId") stu
          errors := st.errors ++
            [rowErr st.processed
              ("Invalid month date: " ++ rowGetD row "month")] }) ∧
    (∀ tid exc row st stu d, validateAttendanceRow row = none →
      exc.dbop = none →
      findStudent st.db (rowGetD row "studentId") = some stu →
      parseMonthKey (rowGetD row "month") = some d → d ≠ .invalid →
      (jsParseFloat (rowGetD row "attendancePercent") = none ∨
        ∃ p, jsParseFloat (rowGetD row "attendancePercent") = some p ∧
          (p.blt (JsNum.ofInt 0) || (JsNum.ofInt 100).blt p) = true) →
      stepRow .attendance tid exc row st =
        { st with
          db := ensureCourse st.db (rowGetD row "courseId") stu
          errors := st.errors ++
            [rowErr st.processed
              ("Invalid attendance percentage: " ++
                rowGetD row "attendancePercent")] }) ∧
    (∀ tid exc row st stu, validateTestScoreRow row = none →
      exc.dbop = none →
      findStudent st.db (rowGetD row "studentId") = some stu →
      jsDate (rowGetD row "testDate") = .invalid →
      stepRow .testscores tid exc row st =
        { st with
          db := ensureCourse st.db (rowGetD row "courseId") stu
          errors := st.errors ++
            [rowErr st.processed
              ("Invalid test date: " ++ rowGetD row "testDate")] }) ∧
    (∀ tid exc row st stu, validateTestScoreRow row = none →
      exc.dbop = none →
      findStudent st.db (rowGetD row "studentId") = some stu →
      jsDate (rowGetD row "testDate") ≠ .invalid →
      (jsParseFloat (rowGetD row "score") = none ∨
        ∃ p, jsParseFloat (rowGetD row "score") = some p ∧
          (p.blt (JsNum.ofInt 0) || (JsNum.ofInt 100).blt p) = true) →
      stepRow .testscores tid exc row st =
        { st with
          db := ensureCourse st.db (rowGetD row "courseId") stu
          errors := st.errors ++
            [rowErr st.processed ("Invalid score: " ++ rowGetD row "score")] }) ∧
    (∀ tid exc row st stu, validateBacklogRow row = none →
      exc.dbop = none →
      findStudent st.db (rowGetD row "studentId") = some stu →
      (jsParseInt (rowGetD row "attempts") = none ∨
        ∃ k, jsParseInt (rowGetD row "attempts") = some k ∧ k < 1) →
      stepRow .backlogs tid exc row st =
        { st with
          db := ensureCourse st.db (rowGetD row "courseId") stu
          errors := st.errors ++
            [rowErr st.processed
              ("Invalid attempts: " ++ rowGetD row "attempts")] }) ∧
    (∀ tid exc row st stu, validateFeeRow row = none →
      exc.dbop = none →
      findStudent st.db (rowGetD row "studentId") = some stu →
      jsDate (rowGetD row "dueDate") = .invalid →
      stepRow .fees tid exc row st =
        { st with errors := st.errors ++
            [rowErr st.processed
              ("Invalid due date: " ++ rowGetD row "dueDate")] }) ∧
    (∀ tid exc row st stu, validateFeeRow row = none →
      exc.dbop = none →
      findStudent st.db (rowGetD row "studentId") = some stu →
      jsDate (rowGetD row "dueDate") ≠ .invalid →
      falsy (rowGet row "paidDate") = false →
      jsDate (rowGetD row "paidDate") = .invalid →
      stepRow .fees tid exc row st =
        { st with errors := st.errors ++
            [rowErr st.processed
              ("Invalid paid date: " ++ rowGetD row "paidDate")] }) ∧
    (∀ tid exc row st stu, validateFeeRow row = none →
      exc.dbop = none →
      findStudent st.db (rowGetD row "studentId") = some stu →
      jsDate (rowGetD row "dueDate") ≠ .invalid →
      ¬(falsy (rowGet row "paidDate") = false ∧
        jsDate (rowGetD row "paidDate") = .invalid) →
      (jsParseInt (rowGetD row "dueMonths") = none ∨
        ∃ k, jsParseInt (rowGetD row "dueMonths") = some k ∧ k < 1) →
      stepRow .fees tid exc row st =
        { st with errors := st.errors ++
            [rowErr st.processed
              ("Invalid due months: " ++ rowGetD row "dueMonths")] }) ∧
    (∀ tid exc row st stu, validateProjectRow row = none →
      exc.dbop = none →
      findStudent st.db (rowGetD row "studentId") = some stu →
      stepRow .projects tid exc row st =
        { st with
          db := { st.db with projects := st.db.projects ++
            [⟨rowGetD row "title", orNull (rowGet row "description"),
              rowGetD row "studentId", tid, jsDate (rowGetD row "startDate"),
              if falsy (rowGet row "endDate") then none
              else some (jsDate (rowGetD row "endDate")),
              orDefault (rowGet row "status") "Active"⟩] }
          processed := st.processed + 1 }) ∧
    (∀ tid exc row st stu, validatePhdRow row = none →
      exc.dbop = none →
      findStudent st.db (rowGetD row "studentId") = some stu →
      stepRow .phd tid exc row st =
        { st with
          db := { st.db with phds := st.db.phds ++
            [⟨rowGetD row "title", rowGetD row "researchArea",
              rowGetD row "studentId", tid, jsDate (rowGetD row "startDate"),
              if falsy (rowGet row "expectedEnd") then none
              else some (jsDate (rowGetD row "expectedEnd")),
              orDefault (rowGet row "status") "Ongoing"⟩] }
          processed := st.processed + 1 }) ∧
    (∀ tid exc row st stu, validateFellowshipRow row = none →
      exc.dbop = none →
      findStudent st.db (rowGetD row "studentId") = some stu →
      stepRow .fellowships tid exc row st =
        { st with
          db := { st.db with fellowships := st.db.fellowships ++
            [⟨rowGetD row "type", jsParseFloat (rowGetD row "amount"),
              jsParseInt (rowGetD row "duration"),
              rowGetD row "studentId", tid, jsDate (rowGetD row "startDate"),
              if falsy (rowGet row "endDate") then none
              else some (jsDate (rowGetD row "endDate")),
              orDefault (rowGet row "status") "Active"⟩] }
          processed := st.processed + 1 }) := by
  refine ⟨?_, ?_, ?_, ?_, ?_, ?_, ?_, ?_, ?_, ?_, ?_, ?_, ?_, ?_⟩
  · intro tid exc row st h1 h2
    simp [stepRow, processStudentRow, h1, h2]
  · intro tid exc row st h1 h2 h3
    rcases h3 with h3 | ⟨k, h3, h4⟩
    · simp [stepRow, processStudentRow, h1, h2, h3]
    · simp [stepRow, processStudentRow, h1, h2, h3, h4]
  · intro tid exc row st stu h1 h2 h3 h4
    simp [stepRow, processAttendanceRow, h1, h2, h3, h4]
  · intro tid exc row st stu h1 h2 h3 h4
    simp [stepRow, processAttendanceRow, h1, h2, h3, h4]
  · intro tid exc row st stu d h1 h2 h3 h4 h5 h6
    rcases h6 with h6 | ⟨p, h6, h7⟩
    · simp [stepRow, processAttendanceRow, h1, h2, h3, h4, h5, h6]
    · simp [stepRow, processAttendanceRow, h1, h2, h3, h4, h5, h6, h7]
  · intro tid exc row st stu h1 h2 h3 h4
    simp [stepRow, processTestScoreRow, h1, h2, h3, h4]
  · intro tid exc row st stu h1 h2 h3 h4 h5
    rcases h5 with h5 | ⟨p, h5, h6⟩
    · simp [stepRow, processTestScoreRow, h1, h2, h3, h4, h5]
    · simp [stepRow, processTestScoreRow, h1, h2, h3, h4, h5, h6]
  · intro tid exc row st stu h1 h2 h3 h4
    rcases h4 with h4 | ⟨k, h4, h5⟩
    · simp [stepRow, processBacklogRow, h1, h2, h3, h4]
    · simp [stepRow, processBacklogRow, h1, h2, h3, h4, h5]
  · intro tid exc row st stu h1 h2 h3 h4
    simp [stepRow, processFeeRow, h1, h2, h3, h4]
  · intro tid exc row st stu h1 h2 h3 h4 h5 h6
    simp [stepRow, processFeeRow, h1, h2, h3, h4, h5, h6]
  · intro tid exc row st stu h1 h2 h3 h4 h5 h6
    rcases h6 with h6 | ⟨k, h6, h7⟩
    · simp [stepRow, processFeeRow, h1, h2, h3, h4, h5, h6]
    · simp [stepRow, processFeeRow, h1, h2, h3, h4, h5, h6, h7]
  · intro tid exc row st stu h1 h2 h3
    simp [stepRow, processProjectRow, h1, h2, h3]
  · intro tid exc row st stu h1 h2 h3
    simp [stepRow, processPhdRow, h1, h2, h3]
  · intro tid exc row st stu h1 h2 h3
    simp [stepRow, processFellowshipRow, h1, h2, h3]

/-- C2 amended, witness: a fees row whose `dueMonths` is non-numeric is
skipped with an `Invalid due months` error. -/
theorem C2_amended_coercion_checks_witness :
    stepRow .fees "T1" noExc
        [("studentId", some "S1"), ("dueDate", some "2024-01-01"),
         ("status", some "Due"), ("dueMonths", some "soon")]
        ⟨dbS, [], 0⟩ =
      { db := dbS, errors := ["Row 1: Invalid due months: soon"], processed := 0 } := by
  have h := C2_amended_coercion_checks.2.2.2.2.2.2.2.2.2.2.1
    "T1" noExc
    [("studentId", some "S1"), ("dueDate", some "2024-01-01"),
     ("status", some "Due"), ("dueMonths", some "soon")]
    ⟨dbS, [], 0⟩ stu1 (by decide) (by decide) (by decide) (by decide)
    (by decide) (Or.inl (by decide))
  simpa using h

/-- C3 amended: the attendance month key is truncated to the first day
of the calendar month only for 7-character `YYYY-MM` inputs, to which
the importer appends `-01`; a longer `YYYY-MM-DD` input is parsed as is
and keeps its day component, so two rows naming different days of the
same calendar month address different attendance records. -/
theorem C3_amended_month_truncation :
    (∀ m : String, m.length = 7 → m.data.contains '-' = true →
      parseMonthKey m = some (jsDate (m ++ "-01"))) ∧
    (∀ m : String, 7 < m.length → m.data.contains '-' = true →
      parseMonthKey m = some (jsDate m)) ∧
    parseMonthKey "2024-03" = some (.valid ⟨2024, 3, 1⟩) ∧
    parseMonthKey "2024-03-15" = some (.valid ⟨2024, 3, 15⟩) := by
  refine ⟨?_, ?_, by decide, by decide⟩
  · intro m h1 h2
    simp [parseMonthKey, h1, h2]
    simpa using h2
  · intro m h1 h2
    have hne : ¬ m.length = 7 := by omega
    have hle : 7 ≤ m.length := by omega
    simp [parseMonthKey, h2, hne, hle]
    simpa using h2

/-- C3 amended, witness: the 7-character month `"2024-03"` is parsed
with `-01` appended. -/
theorem C3_amended_month_truncation_witness :
    parseMonthKey "2024-03" = some (jsDate ("2024-03" ++ "-01")) :=
  C3_amended_month_truncation.1 "2024-03" (by decide) (by decide)

/-- The batch block never touches the students table. -/
lemma handleBatch_students (exc : Exc) (row : Row) (db : DB) (p : Nat) :
    (handleBatch exc row db p).1.students = db.students := by
  unfold handleBatch
  repeat' split
  all_goals try rfl
  all_goals simp only []
  all_goals split <;> rfl

/-- `findStudent` only reads the students table. -/
lemma findStudent_congr {db1 db2 : DB} (h : db1.students = db2.students)
    (sid : String) : findStudent db1 sid = findStudent db2 sid := by
  simp [findStudent, h]

/-- Replacing the found record in a list makes the replacement the found
record, provided it keeps the searched key. -/
lemma find?_map_replace (l : List Student) (sid : String) (upd : Student)
    (hupd : upd.studentId = sid) (ex : Student)
    (hex : l.find? (fun s => s.studentId == sid) = some ex) :
    (l.map (fun s => if s.studentId == sid then upd else s)).find?
      (fun s => s.studentId == sid) = some upd := by
  induction l with
  | nil => simp at hex
  | cons a as ih =>
    cases hbeq : a.studentId == sid with
    | true =>
        have hfa : (if (a.studentId == sid) = true then upd else a) = upd := by
          simp [hbeq]
        rw [List.map_cons, hfa, List.find?_cons_of_pos]
        simp [hupd]
    | false =>
        rw [List.find?_cons_of_neg] at hex
        · have hfa : (if (a.studentId == sid) = true then upd else a) = a := by
            simp [hbeq]
          rw [List.map_cons, hfa, List.find?_cons_of_neg]
          · exact ih hex
          · simp [hbeq]
        · simp [hbeq]

/-- C4: on a students upload of a row whose student already exists, an
existing record with no owning teacher (a falsy `teacherId`) is claimed
by the uploading teacher, while an existing record with an owning
teacher keeps that exact teacher — the update payload omits
`teacherId`.  A student's owner is the single nullable `teacherId`
field, so every outcome leaves the student with at most one owning
teacher. -/
theorem C4_owning_teacher (tid : String) (exc : Exc) (row : Row)
    (st : ImportState) (ex : Student)
    (h1 : validateStudentRow row = none)
    (h2 : jsDate (rowGetD row "dob") ≠ .invalid)
    (k : Int) (h3 : jsParseInt (rowGetD row "currentSemester") = some k)
    (h4 : ¬(k < 1 ∨ k > 8))
    (h5 : exc.dbop = none)
    (h6 : findStudent st.db (rowGetD row "studentId") = some ex) :
    (ex.teacherId = none →
      (findStudent (stepRow .students tid exc row st).db
          (rowGetD row "studentId")).map Student.teacherId = some (some tid)) ∧
    (∀ t, ex.teacherId = some t → t ≠ "" →
      (findStudent (stepRow .students tid exc row st).db
          (rowGetD row "studentId")).map Student.teacherId = some (some t)) := by
  have h6' : findStudent (handleBatch exc row st.db st.processed).1
      (rowGetD row "studentId") = some ex := by
    rw [findStudent_congr (handleBatch_students exc row st.db st.processed)]
    exact h6
  constructor
  · intro h7
    simp only [stepRow]
    unfold processStudentRow
    simp only [h1, h3, h5, if_neg h2, if_neg h4]
    rcases hhb : handleBatch exc row st.db st.processed with ⟨db1, batchErrs, fbid⟩
    rw [hhb] at h6'
    simp only [hhb, h6', h7, falsy, if_true]
    simp only [findStudent, updateStudentRec] at h6' ⊢
    rw [find?_map_replace db1.students (rowGetD row "studentId") _ rfl ex h6']
    rfl
  · intro t h7 h8
    simp only [stepRow]
    unfold processStudentRow
    simp only [h1, h3, h5, if_neg h2, if_neg h4]
    rcases hhb : handleBatch exc row st.db st.processed with ⟨db1, batchErrs, fbid⟩
    rw [hhb] at h6'
    have hfalsy : falsy (some t) = false := by simp [falsy, h8]
    simp only [hhb, h6', h7, hfalsy, Bool.false_eq_true, if_false]
    simp only [findStudent, updateStudentRec] at h6' ⊢
    rw [find?_map_replace db1.students (rowGetD row "studentId") _ rfl ex h6']
    rfl

/-- C4 witness: from the fixture store, the orphaned student `S3` is
claimed by the uploading teacher `T1`, and the owned student `S1` keeps
its original teacher `T0`. -/
theorem C4_owning_teacher_witness :
    (findStudent (stepRow .students "T1" noExc stuRowS3
        ⟨dbS, [], 0⟩).db "S3").map Student.teacherId = some (some "T1") ∧
    (findStudent (stepRow .students "T1" noExc stuRowS1
        ⟨dbS, [], 0⟩).db "S1").map Student.teacherId = some (some "T0") := by
  constructor
  · exact (C4_owning_teacher "T1" noExc stuRowS3 ⟨dbS, [], 0⟩ stuOrphan
      (by decide) (by decide) 2 (by decide) (by decide) (by decide)
      (by decide)).1 (by decide)
  · exact (C4_owning_teacher "T1" noExc stuRowS1 ⟨dbS, [], 0⟩ stu1
      (by decide) (by decide) 3 (by decide) (by decide) (by decide)
      (by decide)).2 "T0" (by decide) (by decide)

/-- Course auto-vivification never touches the attendance table. -/
lemma ensureCourse_attendance (db : DB) (cid : String) (stu : Student) :
    (ensureCourse db cid stu).attendance = db.attendance := by
  unfold ensureCourse
  split <;> rfl

/-- Course auto-vivification never touches the backlogs table. -/
lemma ensureCourse_backlogs (db : DB) (cid : String) (stu : Student) :
    (ensureCourse db cid stu).backlogs = db.backlogs := by
  unfold ensureCourse
  split <;> rfl

/-- Course auto-vivification never touches the test-score table. -/
lemma ensureCourse_testScores (db : DB) (cid : String) (stu : Student) :
    (ensureCourse db cid stu).testScores = db.testScores := by
  unfold ensureCourse
  split <;> rfl

/-- C5: (i) an attendance row whose (studentId, courseId, month) key
matches an existing record updates that record in place — the stored
percentage is overwritten and the table keeps its length, so no
duplicate appears; (ii) a backlogs row whose (studentId, courseId) key
matches an existing record overwrites its attempt count and cleared
flag, again in place; (iii) a testscores row always appends a fresh
record to the table, whatever records already exist — the branch
performs no existing-record lookup. -/
theorem C5_upsert_semantics :
    (∀ tid exc row st stu d pct ea, validateAttendanceRow row = none →
      exc.dbop = none →
      findStudent st.db (rowGetD row "studentId") = some stu →
      parseMonthKey (rowGetD row "month") = some d → d ≠ .invalid →
      jsParseFloat (rowGetD row "attendancePercent") = some pct →
      (pct.blt (JsNum.ofInt 0) || (JsNum.ofInt 100).blt pct) = false →
      st.db.attendance.find? (fun a => a.studentId == rowGetD row "studentId" &&
        a.courseId == rowGetD row "courseId" && a.month == d) = some ea →
      (stepRow .attendance tid exc row st).db.attendance
          = st.db.attendance.map (fun a =>
              if a.attendanceId == ea.attendanceId then
                { a with attendancePercent := pct } else a) ∧
      (stepRow .attendance tid exc row st).db.attendance.length
          = st.db.attendance.length ∧
      (stepRow .attendance tid exc row st).processed = st.processed + 1 ∧
      (stepRow .attendance tid exc row st).errors = st.errors) ∧
    (∀ tid exc row st stu k eb, validateBacklogRow row = none →
      exc.dbop = none →
      findStudent st.db (rowGetD row "studentId") = some stu →
      jsParseInt (rowGetD row "attempts") = some k → ¬ k < 1 →
      st.db.backlogs.find? (fun b => b.studentId == rowGetD row "studentId" &&
        b.courseId == rowGetD row "courseId") = some eb →
      (stepRow .backlogs tid exc row st).db.backlogs
          = st.db.backlogs.map (fun b =>
              if b.backlogId == eb.backlogId then
                { b with
                  attempts := k
                  cleared := rowGet row "cleared" == some "true" ||
                    rowGet row "cleared" == some "1" ||
                    rowGet row "cleared" == some "TRUE" ||
                    rowGet row "cleared" == some "True" } else b) ∧
      (stepRow .backlogs tid exc row st).db.backlogs.length
          = st.db.backlogs.length ∧
      (stepRow .backlogs tid exc row st).processed = st.processed + 1 ∧
      (stepRow .backlogs tid exc row st).errors = st.errors) ∧
    (∀ tid exc row st stu sc, validateTestScoreRow row = none →
      exc.dbop = none →
      findStudent st.db (rowGetD row "studentId") = some stu →
      jsDate (rowGetD row "testDate") ≠ .invalid →
      jsParseFloat (rowGetD row "score") = some sc →
      (sc.blt (JsNum.ofInt 0) || (JsNum.ofInt 100).blt sc) = false →
      (stepRow .testscores tid exc row st).db.testScores
          = st.db.testScores ++
            [⟨rowGetD row "studentId", rowGetD row "courseId",
              jsDate (rowGetD row "testDate"), sc⟩] ∧
      (stepRow .testscores tid exc row st).processed = st.processed + 1 ∧
      (stepRow .testscores tid exc row st).errors = st.errors) := by
  refine ⟨?_, ?_, ?_⟩
  · intro tid exc row st stu d pct ea h1 h2 h3 h4 h5 h6 h7 h8
    simp only [stepRow]
    unfold processAttendanceRow
    simp only [h1, h2, h3, h4, h6, h7, Bool.false_eq_true, if_false,
      if_neg h5, ensureCourse_attendance]
    simp only [h8]
    refine ⟨?_, ?_, ?_, ?_⟩ <;> first | trivial | rw [List.length_map]
  · intro tid exc row st stu k eb h1 h2 h3 h4 h5 h6
    simp only [stepRow]
    unfold processBacklogRow
    simp only [h1, h2, h3, h4, if_neg h5, ensureCourse_backlogs]
    simp only [h6]
    refine ⟨?_, ?_, ?_, ?_⟩ <;> first | trivial | rw [List.length_map]
  · intro tid exc row st stu sc h1 h2 h3 h4 h5 h6
    simp only [stepRow]
    unfold processTestScoreRow
    simp only [h1, h2, h3, if_neg h4, h5, h6, Bool.false_eq_true, if_false,
      ensureCourse_testScores]
    refine ⟨?_, ?_, ?_⟩ <;> trivial

/-- C5 witness: re-importing the `(S1, C1, 2024-03)` attendance row with
percent 90 overwrites the existing record; re-importing the `(S1, C1)`
backlog row overwrites attempts and cleared; importing a testscores row
into a store that already holds an identical score appends a second
record. -/
theorem C5_upsert_semantics_witness :
    (stepRow .attendance "T1" noExc (attRow "2024-03" "90")
        ⟨dbA, [], 0⟩).db.attendance
      = [⟨0, "S1", "C1", .valid ⟨2024, 3, 1⟩, ⟨90, 0⟩⟩] ∧
    (stepRow .backlogs "T1" noExc (backlogRow "2" "true")
        ⟨dbB, [], 0⟩).db.backlogs
      = [⟨0, "S1", "C1", 2, true⟩] ∧
    (stepRow .testscores "T1" noExc (scoreRow "2024-01-10" "70")
        ⟨dbT, [], 0⟩).db.testScores
      = [⟨"S1", "C1", .valid ⟨2024, 1, 10⟩, ⟨70, 0⟩⟩,
         ⟨"S1", "C1", .valid ⟨2024, 1, 10⟩, ⟨70, 0⟩⟩] := by
  refine ⟨?_, ?_, ?_⟩
  · have h := (C5_upsert_semantics.1 "T1" noExc (attRow "2024-03" "90")
      ⟨dbA, [], 0⟩ stu1 (.valid ⟨2024, 3, 1⟩) ⟨90, 0⟩
      ⟨0, "S1", "C1", .valid ⟨2024, 3, 1⟩, ⟨80, 0⟩⟩
      (by decide) (by decide) (by decide) (by decide) (by decide)
      (by decide) (by decide) (by decide)).1
    rw [h]
    decide
  · have h := (C5_upsert_semantics.2.1 "T1" noExc (backlogRow "2" "true")
      ⟨dbB, [], 0⟩ stu1 2 ⟨0, "S1", "C1", 1, false⟩
      (by decide) (by decide) (by decide) (by decide) (by decide)
      (by decide)).1
    rw [h]
    decide
  · have h := (C5_upsert_semantics.2.2 "T1" noExc (scoreRow "2024-01-10" "70")
      ⟨dbT, [], 0⟩ stu1 ⟨70, 0⟩
      (by decide) (by decide) (by decide) (by decide) (by decide)
      (by decide)).1
    rw [h]
    decide

/-- Auto-vivification of a missing course appends exactly the
placeholder course record. -/
lemma ensureCourse_not_found (db : DB) (cid : String) (stu : Student)
    (h : findCourse db cid = none) :
    ensureCourse db cid stu =
      { db with courses := db.courses ++
          [⟨cid, "Course " ++ cid, cid, 1, orDefault stu.department "General"⟩] } := by
  unfold ensureCourse
  rw [h]

/-- C6: (i) for every non-student upload type, a validated row whose
`studentId` matches no existing student is skipped with a
`Student {id} not found` error and leaves the whole store unchanged —
in particular no student record is created; (ii) for the three
course-referencing types (attendance, testscores, backlogs), a validated
row whose student exists but whose course does not has a placeholder
course appended to the course table — the missing course never causes a
rejection. -/
theorem C6_referential_checks :
    (∀ t tid exc row st, t ≠ .students →
      exc.dbop = none →
      validatorFor t row = none →
      findStudent st.db (rowGetD row "studentId") = none →
      stepRow t tid exc row st =
        { st with errors := st.errors ++
            [rowErr st.processed
              ("Student " ++ rowGetD row "studentId" ++ " not found")] }) ∧
    (∀ t tid exc row st stu,
      (t = .attendance ∨ t = .testscores ∨ t = .backlogs) →
      exc.dbop = none →
      validatorFor t row = none →
      findStudent st.db (rowGetD row "studentId") = some stu →
      findCourse st.db (rowGetD row "courseId") = none →
      (stepRow t tid exc row st).db.courses =
        st.db.courses ++
          [⟨rowGetD row "courseId", "Course " ++ rowGetD row "courseId",
            rowGetD row "courseId", 1, orDefault stu.department "General"⟩]) := by
  constructor
  · intro t tid exc row st ht h2 h1 h4
    cases t with
    | students => exact absurd rfl ht
    | attendance =>
        simp only [validatorFor] at h1
        simp only [stepRow]
        unfold processAttendanceRow
        simp only [h1, h2, h4]
    | testscores =>
        simp only [validatorFor] at h1
        simp only [stepRow]
        unfold processTestScoreRow
        simp only [h1, h2, h4]
    | backlogs =>
        simp only [validatorFor] at h1
        simp only [stepRow]
        unfold processBacklogRow
        simp only [h1, h2, h4]
    | fees =>
        simp only [validatorFor] at h1
        simp only [stepRow]
        unfold processFeeRow
        simp only [h1, h2, h4]
    | projects =>
        simp only [validatorFor] at h1
        simp only [stepRow]
        unfold processProjectRow
        simp only [h1, h2, h4]
    | phd =>
        simp only [validatorFor] at h1
        simp only [stepRow]
        unfold processPhdRow
        simp only [h1, h2, h4]
    | fellowships =>
        simp only [validatorFor] at h1
        simp only [stepRow]
        unfold processFellowshipRow
        simp only [h1, h2, h4]
  · intro t tid exc row st stu ht h2 h1 h3 h4
    have hens := ensureCourse_not_found st.db (rowGetD row "courseId") stu h4
    rcases ht with rfl | rfl | rfl
    · simp only [validatorFor] at h1
      simp only [stepRow]
      unfold processAttendanceRow
      simp only [h1, h2, h3, hens]
      repeat' split
      all_goals rfl
    · simp only [validatorFor] at h1
      simp only [stepRow]
      unfold processTestScoreRow
      simp only [h1, h2, h3, hens]
      repeat' split
      all_goals rfl
    · simp only [validatorFor] at h1
      simp only [stepRow]
      unfold processBacklogRow
      simp only [h1, h2, h3, hens]
      repeat' split
      all_goals rfl

/-- C6 witness: a fees row for the unknown student `S9` is rejected with
`Student S9 not found` and changes nothing, while an attendance row for
the known student `S1` and the unknown course `C9` appends the
placeholder course. -/
theorem C6_referential_checks_witness :
    stepRow .fees "T1" noExc feeRowX ⟨dbS, [], 0⟩ =
      { db := dbS, errors := ["Row 1: Student S9 not found"], processed := 0 } ∧
    (stepRow .attendance "T1" noExc attRowX ⟨dbS, [], 0⟩).db.courses =
      dbS.courses ++ [⟨"C9", "Course C9", "C9", 1, "General"⟩] := by
  constructor
  · have h := C6_referential_checks.1 .fees "T1" noExc feeRowX ⟨dbS, [], 0⟩
      (by decide) (by decide) (by decide) (by decide)
    rw [h]
    decide
  · have h := C6_referential_checks.2 .attendance "T1" noExc attRowX
      ⟨dbS, [], 0⟩ stu1 (Or.inl rfl) (by decide) (by decide) (by decide)
      (by decide)
    rw [h]
    decide

/-- The keys of a built row are exactly the headers, when enough values
are supplied. -/
lemma mkRow_keys (headers values : List String)
    (h : values.length = headers.length) :
    (mkRow headers values).map Prod.fst = headers := by
  unfold mkRow
  rw [List.map_map]
  have hcomp : (Prod.fst ∘ fun p : String × String => (p.1, normalizeEmpty p.2))
      = Prod.fst := rfl
  rw [hcomp, List.map_fst_zip]
  omega

/-- The data loop keeps every line whose token count matches the header
count, producing one row per line, each keyed by the headers. -/
lemma csvRows_all_match (headers : List String) (ls : List String)
    (h : ∀ l ∈ ls, (parseLine l).length = headers.length) :
    (csvRows headers ls).length = ls.length ∧
    ∀ r ∈ csvRows headers ls, r.map Prod.fst = headers := by
  induction ls with
  | nil => exact ⟨rfl, by intro r hr; cases hr⟩
  | cons l ls ih =>
    have hl : (parseLine l).length = headers.length := h l (by simp)
    have hrest := ih (fun x hx => h x (by simp [hx]))
    unfold csvRows
    simp only []
    rw [if_pos (by simp [hl])]
    refine ⟨by simp [hrest.1], ?_⟩
    intro r hr
    rcases List.mem_cons.mp hr with rfl | hr'
    · exact mkRow_keys _ _ (by simp [hl])
    · exact hrest.2 r hr'

/-- C7: (i) input with fewer than two lines parses to the empty
sequence; (ii) when every data line tokenizes to as many fields as the
header line, the parser yields exactly one row mapping per data line
(`lines - 1` in total), each keyed by the (trimmed, quote-stripped)
header tokens; (iii) a data line whose token count differs from the
header's is dropped from the output with no error — the parser's result
type carries no error channel at all. -/
theorem C7_parser_shape :
    (∀ s : String, (splitStr '\n' (jsTrim s)).length < 2 → parseCSV s = []) ∧
    (∀ s first rest, splitStr '\n' (jsTrim s) = first :: rest →
      (∀ l ∈ rest, (parseLine l).length = (parseLine first).length) →
      (parseCSV s).length = rest.length ∧
      ∀ r ∈ parseCSV s, r.map Prod.fst = (parseLine first).map removeAllQuotes) ∧
    (∀ headers l ls, (parseLine l).length ≠ headers.length →
      csvRows headers (l :: ls) = csvRows headers ls) := by
  refine ⟨?_, ?_, ?_⟩
  · intro s h
    unfold parseCSV
    rcases hsp : splitStr '\n' (jsTrim s) with _ | ⟨f, _ | ⟨l, rest⟩⟩
    · rfl
    · rfl
    · rw [hsp] at h
      simp at h
      omega
  · intro s first rest hsp hlen
    rcases rest with _ | ⟨l, ls⟩
    · constructor
      · unfold parseCSV
        rw [hsp]
        rfl
      · unfold parseCSV
        rw [hsp]
        intro r hr
        cases hr
    · have hcsv : parseCSV s =
          csvRows ((parseLine first).map removeAllQuotes) (l :: ls) := by
        unfold parseCSV
        rw [hsp]
      have hmatch : ∀ x ∈ l :: ls,
          (parseLine x).length
            = ((parseLine first).map removeAllQuotes).length := by
        intro x hx
        rw [List.length_map]
        exact hlen x hx
      have hall := csvRows_all_match ((parseLine first).map removeAllQuotes)
        (l :: ls) hmatch
      rw [hcsv]
      exact hall
  · intro headers l ls h
    conv_lhs => rw [csvRows]
    rw [if_neg (by simp [h])]

/-- C7 witness: the one-line input `"a"` parses to nothing; the
two-line input `"h1,h2\n1,2"` yields one row keyed `h1`, `h2`; a
three-field data line under a two-field header is dropped. -/
theorem C7_parser_shape_witness :
    parseCSV "a" = [] ∧
    (parseCSV "h1,h2\n1,2").length = 1 ∧
    csvRows ["h1", "h2"] ["1,2,3"] = csvRows ["h1", "h2"] [] := by
  refine ⟨?_, ?_, ?_⟩
  · exact C7_parser_shape.1 "a" (by decide)
  · exact (C7_parser_shape.2.1 "h1,h2\n1,2" "h1,h2" ["1,2"] (by decide)
      (by decide)).1
  · exact C7_parser_shape.2.2 ["h1", "h2"] "1,2,3" [] (by decide)

/-- C9: on a students upload, a row whose batch lookup/creation throws
is not skipped: the batch failure is reported as an error, the student
is still created with a null batch reference and the uploading teacher
as owner, and the row still counts as processed.  Hence one row yields
both an error entry and a processed increment, and the one-row upload's
response reports `processed = total` together with a non-empty error
list. -/
theorem C9_batch_failure_not_skipped (tid m : String) (row : Row)
    (st : ImportState) (b : String) (k : Int)
    (h1 : validateStudentRow row = none)
    (h2 : jsDate (rowGetD row "dob") ≠ .invalid)
    (h3 : jsParseInt (rowGetD row "currentSemester") = some k)
    (h4 : ¬(k < 1 ∨ k > 8))
    (h5 : rowGet row "batchId" = some b) (h6 : ¬ b = "")
    (h7 : findStudent st.db (rowGetD row "studentId") = none) :
    stepRow .students tid ⟨some m, none⟩ row st =
      { db := { st.db with students := st.db.students ++
          [studentPayload row (jsDate (rowGetD row "dob")) k none (some tid)] }
        errors := st.errors ++
          [rowErr st.processed
            ("Could not create/find batch " ++ b ++ ": " ++ m)]
        processed := st.processed + 1 } ∧
    (importCSV .students tid (fun _ => ⟨some m, none⟩) [row] st.db).1.processed
      = (importCSV .students tid (fun _ => ⟨some m, none⟩) [row] st.db).1.total ∧
    (importCSV .students tid (fun _ => ⟨some m, none⟩) [row] st.db).1.errors
      ≠ [] := by
  have hgen : ∀ (db : DB) (errs : List String) (p : Nat),
      findStudent db (rowGetD row "studentId") = none →
      stepRow .students tid ⟨some m, none⟩ row ⟨db, errs, p⟩ =
        { db := { db with students := db.students ++
            [studentPayload row (jsDate (rowGetD row "dob")) k none (some tid)] }
          errors := errs ++
            [rowErr p ("Could not create/find batch " ++ b ++ ": " ++ m)]
          processed := p + 1 } := by
    intro db errs p hdb
    simp only [stepRow]
    unfold processStudentRow
    simp only [h1, h3, if_neg h2, if_neg h4]
    unfold handleBatch
    simp only [h5, if_neg h6, hdb]
  refine ⟨hgen st.db st.errors st.processed h7, ?_, ?_⟩
  · simp only [importCSV, runImport, hgen st.db [] 0 h7]
    rfl
  · simp only [importCSV, runImport, hgen st.db [] 0 h7]
    simp

/-- C9 witness: uploading the fixture row for the new student `S2`
(batch `CSE2024B`) while every batch operation throws `boom` reports the
batch error, still creates `S2` with no batch and owner `T1`, and
answers `processed = total = 1` with one error. -/
theorem C9_batch_failure_not_skipped_witness :
    stepRow .students "T1" ⟨some "boom", none⟩ stuRow ⟨dbS, [], 0⟩ =
      { db := { dbS with students := dbS.students ++
          [⟨"S2", "Bob", "b@x.com", none, .valid ⟨2001, 2, 3⟩, none, 4,
            none, some "T1", none, none, none, none⟩] }
        errors := ["Row 1: Could not create/find batch CSE2024B: boom"]
        processed := 1 } ∧
    (importCSV .students "T1" (fun _ => ⟨some "boom", none⟩) [stuRow]
        dbS).1.processed
      = (importCSV .students "T1" (fun _ => ⟨some "boom", none⟩) [stuRow]
        dbS).1.total := by
  have h := C9_batch_failure_not_skipped "T1" "boom" stuRow ⟨dbS, [], 0⟩
    "CSE2024B" 4 (by decide) (by decide) (by decide) (by decide)
    (by decide) (by decide) (by decide)
  constructor
  · rw [h.1]
    decide
  · exact h.2.1

/-- C10: the parser applies different quote handling to header and data
fields: each row is keyed by the header tokens with every double quote
removed, while each data value only has one leading and one trailing
double quote stripped.  On the token `a"b"` this yields the key `ab`
but the value `a"b`, as the end-to-end example shows. -/
theorem C10_header_vs_data_quotes :
    (∀ s first l, splitStr '\n' (jsTrim s) = [first, l] →
      (parseLine l).length = (parseLine first).length →
      parseCSV s = [mkRow ((parseLine first).map removeAllQuotes)
        ((parseLine l).map stripSurroundingQuotes)]) ∧
    removeAllQuotes "a\"b\"" = "ab" ∧
    stripSurroundingQuotes "a\"b\"" = "a\"b" ∧
    parseCSV "\"a\"\"b\"\"\"\n\"a\"\"b\"\"\"" = [[("ab", some "a\"b")]] := by
  refine ⟨?_, by decide, by decide, by decide⟩
  intro s first l hsp hlen
  unfold parseCSV
  rw [hsp]
  unfold csvRows
  rw [if_pos (by simp [hlen])]
  rfl

/-- C10 witness: a plain two-line file parses to the single row built
from the quote-stripped header and value tokens. -/
theorem C10_header_vs_data_quotes_witness :
    parseCSV "h\nv" = [mkRow ((parseLine "h").map removeAllQuotes)
      ((parseLine "v").map stripSurroundingQuotes)] :=
  C10_header_vs_data_quotes.1 "h\nv" "h" "v" (by decide) (by decide)
